import Mathlib

/-!
Shallow embedding of the booking backend in `src/cloud-function/main.py`
(a Google Cloud Function over a Supabase store).

Times are modelled as strings in the wire format the code uses
("HH:MM:SS"); lexicographic comparison on that fixed-width format is the
comparison the store's `lt`/`gt` query filters perform.  The store
(tables `bookings` and `bays`) is modelled as lists of records, queries
returning rows in list order, which is the only order the code can rely
on since no query in the source carries an `order` clause.

String scanning is implemented over `List Char` by structural recursion
so that every definition evaluates inside the kernel.
-/

namespace WeGolf

/-- Row of the `bookings` table, with the columns `new_booking` inserts
(main.py lines 117-125). -/
structure Reservation where
  id : Nat
  email : String
  bay_id : Nat
  date : String
  start_time : String
  end_time : String
  status : String
  dur : String
  deriving Repr, DecidableEq

/-- Row of the `bays` table: identifier and status string. -/
structure Bay where
  id : Nat
  status : String
  deriving Repr, DecidableEq

/-- The external Supabase store: the two tables plus the id the store
will assign to the next inserted booking row. -/
structure Store where
  bookings : List Reservation
  bays : List Bay
  nextId : Nat
  deriving Repr, DecidableEq

/-! ## Character/string primitives -/

/-- Split a character list at every occurrence of `sep`, keeping empty
segments, as `str.split(sep)` / `String.splitOn` do. -/
def splitOnChar (sep : Char) : List Char → List (List Char)
  | [] => [[]]
  | c :: rest =>
    match splitOnChar sep rest, c == sep with
    | r, true => [] :: r
    | f :: t, false => (c :: f) :: t
    | [], false => [[c]]

/-- Strict lexicographic order on character lists: the order Postgres
applies to the `start_time`/`end_time` columns, which on the fixed-width
"HH:MM:SS" format coincides with chronological order. -/
def strLtB : List Char → List Char → Bool
  | [], [] => false
  | [], _ :: _ => true
  | _ :: _, [] => false
  | a :: as, b :: bs => a.toNat < b.toNat || (a == b && strLtB as bs)

/-- Comparison the store performs for `.lt("start_time", x)` etc.,
lifted to `String`. -/
def timeLt (a b : String) : Bool := strLtB a.data b.data

/-- Case-insensitive match of `cs` against an uppercase-letter pattern
(`'AM'`/`'PM'`), as CPython's `%p` directive matches (IGNORECASE). -/
def eqCaseFold : List Char → List Char → Bool
  | [], [] => true
  | p :: ps, c :: rest => (c == p || c.toNat == p.toNat + 32) && eqCaseFold ps rest
  | _, _ => false

/-- ASCII lowercase of one character, as Python's `str.lower()` does on
the ASCII range. -/
def lowerChar (c : Char) : Char :=
  if 65 ≤ c.toNat ∧ c.toNat ≤ 90 then Char.ofNat (c.toNat + 32) else c

/-- Embedding of Python's `str.lower()` (ASCII range). -/
def lowerStr (s : String) : String := ⟨s.data.map lowerChar⟩

/-- Value of a list of ASCII digit characters read in base 10. -/
def digitsVal (cs : List Char) : Nat :=
  cs.foldl (fun a c => a * 10 + (c.toNat - 48)) 0

/-- Field of a `strptime` numeric directive: 1 or 2 ASCII digits whose
value is at most `hi` and at least `lo` (CPython builds the regex
`2[0-3]|[0-1]\d|\d` for `%H`, `[0-5]\d|\d` for `%M`, `1[0-2]|0[1-9]|[1-9]`
for `%I`, which over 1-2 digit strings is exactly a bound check). -/
def parseField (lo hi : Nat) (cs : List Char) : Option Nat :=
  if (cs.length = 1 ∨ cs.length = 2) ∧ cs.all (fun c => c.isDigit)
      ∧ lo ≤ digitsVal cs ∧ digitsVal cs ≤ hi then
    some (digitsVal cs)
  else none

/-- Two-digit zero-padded decimal rendering, as `strftime` pads `%H`,
`%M`, `%S`. -/
def pad2 (n : Nat) : String :=
  if n < 10 then "0" ++ toString n else toString n

/-- Render a second count below 86400 in the `%H:%M:%S` wire format. -/
def fmtTime (n : Nat) : String :=
  pad2 (n / 3600) ++ ":" ++ pad2 (n % 3600 / 60) ++ ":" ++ pad2 (n % 60)

/-- Parse `datetime.strptime(s, '%H:%M:%S')` into seconds since
midnight.  Seconds 60/61 match CPython's `%S` regex but are then
rejected by the `datetime` constructor, so they are `none` here too. -/
def parseTime24 (s : String) : Option Nat :=
  match splitOnChar ':' s.data with
  | [h, m, sec] =>
    match parseField 0 23 h, parseField 0 59 m, parseField 0 59 sec with
    | some h', some m', some s' => some (h' * 3600 + m' * 60 + s')
    | _, _, _ => none
  | _ => none

/-- Parse `int(s)`: an optional sign followed by at least one ASCII
digit (whitespace/underscore forms that Python also tolerates are not
exercised by this code's inputs). -/
def parseInt (s : String) : Option Int :=
  match s.data with
  | '-' :: rest =>
    if rest ≠ [] ∧ rest.all (fun c => c.isDigit) then
      some (-(digitsVal rest : Int))
    else none
  | '+' :: rest =>
    if rest ≠ [] ∧ rest.all (fun c => c.isDigit) then
      some (digitsVal rest : Int)
    else none
  | cs =>
    if cs ≠ [] ∧ cs.all (fun c => c.isDigit) then
      some (digitsVal cs : Int)
    else none

/-- Seconds from 0001-01-01 to 1900-01-01 (the date `strptime` defaults
to): proleptic-Gregorian ordinal of 1900-01-01 is 693596, so 693595
whole days elapsed. -/
def epoch1900 : Nat := 693595 * 86400

/-- Last representable second of Python's `datetime` range, 9999-12-31
23:59:59 (ordinal of 9999-12-31 is 3652059). -/
def datetimeMax : Nat := 3652058 * 86400 + 86399

/-! ## Time utilities (main.py lines 171-206) -/

/-- Embedding of `generate_end_time(duration, start_time)` (main.py
lines 171-189): parse the start as `%H:%M:%S`, parse the duration with
`int`, add `timedelta(hours=duration)` to the 1900-01-01 anchored
datetime, and render `.time()` — i.e. the total seconds modulo 86400.
Any exception (parse failure, or `OverflowError` when the shifted
datetime leaves Python's representable range) is caught and mapped to
`None`. -/
def generate_end_time (duration start_time : String) : Option String :=
  match parseTime24 start_time with
  | none => none
  | some s =>
    match parseInt duration with
    | none => none
    | some k =>
      let total : Int := (epoch1900 : Int) + s + 3600 * k
      if 0 ≤ total ∧ total ≤ (datetimeMax : Int) then
        some (fmtTime ((total % 86400).toNat))
      else none

/-- Embedding of `format_start_time(start_time)` (main.py lines
191-206): `strptime '%I:%M %p'` then `strftime '%H:%M:%S'`.  The `%p`
match is case-insensitive; the hour directive `%I` requires 1-12. -/
def format_start_time (start_time : String) : Option String :=
  match splitOnChar ' ' start_time.data with
  | [hm, ap] =>
    match splitOnChar ':' hm with
    | [h, m] =>
      match parseField 1 12 h, parseField 0 59 m with
      | some h', some m' =>
        if eqCaseFold ['A', 'M'] ap then
          some (fmtTime ((if h' = 12 then 0 else h') * 3600 + m' * 60))
        else if eqCaseFold ['P', 'M'] ap then
          some (fmtTime ((if h' = 12 then 12 else h' + 12) * 3600 + m' * 60))
        else none
      | _, _ => none
    | _ => none
  | _ => none

/-! ## Availability resolver (main.py lines 142-169) -/

/-- Row predicate of the overlap query on line 156:
`.eq('date', booking_date).lt("start_time", end_time).gt("end_time",
start_time)`.  Note that the source applies no status filter here:
cancelled rows are matched too. -/
def overlapsRow (booking_date start_time end_time : String) (r : Reservation) : Bool :=
  r.date == booking_date && timeLt r.start_time end_time && timeLt start_time r.end_time

/-- The `booked_bay_ids` list of main.py line 157: bay ids of the rows
matched by the overlap query, in store order. -/
def occupiedBays (st : Store) (booking_date start_time end_time : String) : List Nat :=
  (st.bookings.filter (overlapsRow booking_date start_time end_time)).map
    (fun r => r.bay_id)

/-- The candidate id list the two branches of `find_a_bay` draw from
(main.py lines 159-166): when some overlapping row exists, ids of bays
with status "Available" that are not occupied; when none exists, ids of
ALL bays, with no status filter (the source's unfiltered
`supabase.table('bays').select('id')` on line 164). -/
def bayCandidates (st : Store) (booking_date start_time end_time : String) : List Nat :=
  let booked_bay_ids := occupiedBays st booking_date start_time end_time
  if booked_bay_ids.isEmpty then
    st.bays.map (fun b => b.id)
  else
    (st.bays.filter (fun b => !booked_bay_ids.contains b.id && b.status == "Available")).map
      (fun b => b.id)

/-- Embedding of `find_a_bay(booking_date, start_time, end_time)`
(main.py lines 142-169): first element of the branch's candidate list,
`None` when it is empty. -/
def find_a_bay (st : Store) (booking_date start_time end_time : String) : Option Nat :=
  (bayCandidates st booking_date start_time end_time).head?

/-! ## Booking service (main.py lines 93-140) -/

/-- Request parameters `new_booking` reads from
`request['sessionInfo']['parameters']`. -/
structure BookingParams where
  customer_email : String
  booking_duration : String
  year : Nat
  month : Nat
  day : Nat
  booking_start_time : String
  deriving Repr, DecidableEq

/-- The date string of main.py line 109:
`f"{int(year)}-{int(month)}-{int(day)}"` (no zero padding). -/
def assembleDate (y m d : Nat) : String :=
  toString y ++ "-" ++ toString m ++ "-" ++ toString d

/-- Embedding of `new_booking` (main.py lines 93-140): split the
duration on spaces and keep the first word, assemble the date, format
the start time, compute the end time, find a bay, and insert the row.
Returns the new store and, on success, the confirmation pair
(reservation id, bay id).  A parse failure makes a later step raise
inside its own `try` (or the overlap query match nothing sensible), and
in every such path no row is inserted, which the `none` branches model;
the inserted row stores the email exactly as received (line 118, no
`.lower()`). -/
def new_booking (st : Store) (p : BookingParams) : Store × Option (Nat × Nat) :=
  let duration := ((splitOnChar ' ' p.booking_duration.data).headD []).asString
  let booking_date := assembleDate p.year p.month p.day
  match format_start_time p.booking_start_time with
  | none => (st, none)
  | some start_time =>
    match generate_end_time duration start_time with
    | none => (st, none)
    | some end_time =>
      match find_a_bay st booking_date start_time end_time with
      | none => (st, none)
      | some bay_id =>
        let r : Reservation :=
          { id := st.nextId, email := p.customer_email, bay_id := bay_id,
            date := booking_date, start_time := start_time, end_time := end_time,
            status := "booked", dur := duration }
        ({ st with bookings := st.bookings ++ [r], nextId := st.nextId + 1 },
         some (st.nextId, bay_id))

/-- State reached after a sequence of `new_booking` requests. -/
def runBookings (st : Store) (ps : List BookingParams) : Store :=
  ps.foldl (fun s p => (new_booking s p).1) st

/-! ## Cancellation service (main.py lines 66-91) -/

/-- Embedding of `cancel_booking` (main.py lines 77-88): lowercase the
email, update status to "cancelled" on every row whose id AND
(folded) email match — the source has no condition on the current
status — and report success iff at least one row matched
(`response.data` non-empty). -/
def cancel_booking (st : Store) (booking_id : Nat) (customer_email : String) :
    Store × Bool :=
  let email := lowerStr customer_email
  let hit := fun (r : Reservation) => r.id == booking_id && r.email == email
  ({ st with
      bookings := st.bookings.map (fun r =>
        if hit r then { r with status := "cancelled" } else r) },
   st.bookings.any hit)

/-! ## Spec-side definitions (for refinement comparisons only) -/

/-- Modelled from the spec's words (§4.2 step 1: "Query all Booked
reservations on `date` whose interval overlaps `[start, end)`"): the
occupied set the spec describes, which unlike `occupiedBays` keeps only
rows whose status is Booked. -/
def occupiedBaysSpec (st : Store) (booking_date start_time end_time : String) :
    List Nat :=
  (st.bookings.filter (fun r =>
      r.status == "booked" && overlapsRow booking_date start_time end_time r)).map
    (fun r => r.bay_id)

/-! ## The no-double-booking invariant -/

/-- Two reservation rows do not conflict: if both are Booked on the same
date and the same bay, their `[start, end)` intervals do not overlap
under the strict half-open test `s1 < e2 AND s2 < e1`. -/
def noConflict (r1 r2 : Reservation) : Prop :=
  r1.status = "booked" → r2.status = "booked" → r1.date = r2.date →
    r1.bay_id = r2.bay_id →
    ¬(timeLt r1.start_time r2.end_time = true ∧ timeLt r2.start_time r1.end_time = true)

instance (r1 r2 : Reservation) : Decidable (noConflict r1 r2) := by
  unfold noConflict; infer_instance

/-- The store invariant: no two distinct Booked rows on the same date
and bay overlap.  (`noConflict` is symmetric, so pairwise over the row
list is exactly the property for all pairs of distinct rows.) -/
def BookedNoOverlap (st : Store) : Prop :=
  st.bookings.Pairwise noConflict

instance (st : Store) : Decidable (BookedNoOverlap st) := by
  unfold BookedNoOverlap; infer_instance

/-! ## Concrete fixtures used by witnesses and counterexamples -/

/-- A pool of three Available bays listed in ascending id order, with no
reservations yet. -/
def poolStore : Store :=
  { bookings := [],
    bays := [⟨1, "Available"⟩, ⟨2, "Available"⟩, ⟨3, "Available"⟩],
    nextId := 0 }

/-- Booking request: 09:00 AM for 2 hours on 2024-05-06. -/
def reqA : BookingParams :=
  { customer_email := "alice@example.com", booking_duration := "2 hours",
    year := 2024, month := 5, day := 6, booking_start_time := "09:00 AM" }

/-- Booking request overlapping `reqA`: 10:00 AM for 2 hours on the same
date. -/
def reqB : BookingParams :=
  { customer_email := "bob@example.com", booking_duration := "2 hours",
    year := 2024, month := 5, day := 6, booking_start_time := "10:00 AM" }

/-- Store holding a single CANCELLED reservation on bay 1,
10:00-12:00 on 2024-5-6. -/
def cancelledRowStore : Store :=
  { bookings := [⟨7, "a@b.c", 1, "2024-5-6", "10:00:00", "12:00:00", "cancelled", "2"⟩],
    bays := [⟨1, "Available"⟩], nextId := 8 }

/-- Store whose only bay has status "Unavailable" and with no
reservations. -/
def unavailableStore : Store :=
  { bookings := [], bays := [⟨1, "Unavailable"⟩], nextId := 0 }

/-- Store whose bay list is NOT in ascending id order: bay 2 listed
before bay 1, both Available, no reservations. -/
def descStore : Store :=
  { bookings := [], bays := [⟨2, "Available"⟩, ⟨1, "Available"⟩], nextId := 0 }

/-- Booking request whose customer email contains uppercase letters. -/
def mixedCaseReq : BookingParams :=
  { customer_email := "Alice@Example.COM", booking_duration := "2 hours",
    year := 2024, month := 5, day := 6, booking_start_time := "09:00 AM" }

/-! ## Helper lemmas -/

/-- An element selected by `head?` belongs to the list. -/
theorem mem_of_head?_some {α : Type} {l : List α} {a : α}
    (h : l.head? = some a) : a ∈ l := by
  cases l with
  | nil => simp at h
  | cons x xs =>
    simp only [List.head?_cons, Option.some.injEq] at h
    exact h ▸ List.mem_cons_self x xs

/-- Central lemma: a bay returned by `find_a_bay` is not the bay of any
row that the overlap query matches.  In the conflict branch the returned
id is filtered against `booked_bay_ids`; in the no-conflict branch no
such row exists at all. -/
theorem find_a_bay_avoids_overlaps (st : Store) (d s e : String) (b : Nat)
    (hb : find_a_bay st d s e = some b) (r : Reservation) (hr : r ∈ st.bookings)
    (hov : overlapsRow d s e r = true) : r.bay_id ≠ b := by
  have hmem : r.bay_id ∈ occupiedBays st d s e := by
    exact List.mem_map_of_mem _ (List.mem_filter.2 ⟨hr, hov⟩)
  unfold find_a_bay bayCandidates at hb
  by_cases hocc : (occupiedBays st d s e).isEmpty
  · rw [List.isEmpty_iff] at hocc
    rw [hocc] at hmem
    exact absurd hmem (List.not_mem_nil _)
  · simp only [hocc, if_neg, Bool.false_eq_true, not_false_eq_true, if_false] at hb
    have hbmem := mem_of_head?_some hb
    obtain ⟨bay, hbay_mem, hbay_id⟩ := List.mem_map.1 hbmem
    have hfil := (List.mem_filter.1 hbay_mem).2
    simp only [Bool.and_eq_true, Bool.not_eq_true', beq_iff_eq] at hfil
    intro hEq
    have hmem' : bay.id ∈ occupiedBays st d s e := by
      rw [hbay_id.trans hEq.symm]; exact hmem
    have hcon : (occupiedBays st d s e).contains bay.id = true := by
      simpa [List.contains, List.elem_iff] using hmem'
    rw [hfil.1] at hcon
    exact Bool.false_ne_true hcon

/-- One `new_booking` call preserves the invariant: the inserted row's
bay differs from the bay of every row overlapping the inserted window,
by `find_a_bay_avoids_overlaps`. -/
theorem new_booking_preserves_invariant (st : Store) (p : BookingParams)
    (h : BookedNoOverlap st) : BookedNoOverlap (new_booking st p).1 := by
  unfold BookedNoOverlap new_booking
  dsimp only
  cases hf : format_start_time p.booking_start_time with
  | none => exact h
  | some start_time =>
    dsimp only
    cases hg : generate_end_time
        ((splitOnChar ' ' p.booking_duration.data).headD []).asString start_time with
    | none => exact h
    | some end_time =>
      dsimp only
      cases hb : find_a_bay st (assembleDate p.year p.month p.day) start_time end_time with
      | none => exact h
      | some bay_id =>
        dsimp only
        rw [List.pairwise_append]
        refine ⟨h, List.pairwise_singleton _ _, ?_⟩
        intro a ha r' hr'
        rw [List.mem_singleton] at hr'
        subst hr'
        intro _ _ hdate hbay ⟨h1, h2⟩
        have hov : overlapsRow (assembleDate p.year p.month p.day) start_time end_time a = true := by
          unfold overlapsRow
          simp only [Bool.and_eq_true, beq_iff_eq]
          exact ⟨⟨hdate, h1⟩, h2⟩
        exact find_a_bay_avoids_overlaps st _ _ _ _ hb a ha hov hbay

/-- A successful `parseField` result lies within the directive's
bounds. -/
theorem parseField_bounds {lo hi : Nat} {cs : List Char} {v : Nat}
    (h : parseField lo hi cs = some v) : lo ≤ v ∧ v ≤ hi := by
  unfold parseField at h
  split at h
  · rename_i hcond
    injection h with h'
    subst h'
    exact ⟨hcond.2.2.1, hcond.2.2.2⟩
  · exact absurd h (by simp)

/-- A parsed `%H:%M:%S` time is at most 23:59:59 in seconds. -/
theorem parseTime24_le (t : String) (s : Nat) (h : parseTime24 t = some s) :
    s ≤ 86399 := by
  unfold parseTime24 at h
  split at h
  · split at h
    · rename_i h' m' s' hh hm hs
      injection h with hinj
      have hb1 := parseField_bounds hh
      have hb2 := parseField_bounds hm
      have hb3 := parseField_bounds hs
      omega
    · exact absurd h (by simp)
  · exact absurd h (by simp)

/-- Evaluation of `generate_end_time` when both parses succeed and the
shifted datetime stays inside Python's representable range (any
duration between -16,000,000 and 70,000,000 hours is safely inside):
the result is the start plus the duration, reduced modulo 24 hours. -/
theorem generate_end_time_in_range (dur t : String) (s : Nat) (k : Int)
    (hstart : parseTime24 t = some s) (hdur : parseInt dur = some k)
    (hlo : -16000000 ≤ k) (hhi : k ≤ 70000000) :
    generate_end_time dur t =
      some (fmtTime ((((s : Int) + 3600 * k) % 86400).toNat)) := by
  have hs : s ≤ 86399 := parseTime24_le t s hstart
  unfold generate_end_time
  rw [hstart]
  dsimp only
  rw [hdur]
  dsimp only
  have hrange : (0 : Int) ≤ (epoch1900 : Int) + s + 3600 * k ∧
      (epoch1900 : Int) + s + 3600 * k ≤ (datetimeMax : Int) := by
    unfold epoch1900 datetimeMax
    push_cast
    omega
  rw [if_pos hrange]
  have hmod : ((epoch1900 : Int) + s + 3600 * k) % 86400 =
      ((s : Int) + 3600 * k) % 86400 := by
    unfold epoch1900
    push_cast
    omega
  rw [hmod]

/-- The head of a list that is pairwise `≤`-sorted is a lower bound for
all its elements. -/
theorem head?_le_of_pairwise {l : List Nat} {b : Nat}
    (hp : l.Pairwise (fun a c => a ≤ c)) (hb : l.head? = some b) :
    ∀ c ∈ l, b ≤ c := by
  cases l with
  | nil => simp at hb
  | cons x xs =>
    simp only [List.head?_cons, Option.some.injEq] at hb
    subst hb
    intro c hc
    rcases List.mem_cons.1 hc with h | h
    · exact h ▸ le_refl _
    · exact (List.pairwise_cons.1 hp).1 c h

/-! ## Claims -/

/-- C1: after any sequence of `new_booking` operations starting from a
store in which no two Booked reservations on the same date and bay
overlap, the store still has no two distinct Booked reservations on the
same date and bay with overlapping `[start, end)` intervals. -/
theorem c1_booking_sequences_preserve_no_overlap (st : Store) (ps : List BookingParams)
    (h : BookedNoOverlap st) : BookedNoOverlap (runBookings st ps) := by
  induction ps generalizing st with
  | nil => exact h
  | cons p ps ih => exact ih (new_booking st p).1 (new_booking_preserves_invariant st p h)

/-- Witness for C1: the empty pool satisfies the invariant, and it is
preserved across the two overlapping booking requests `reqA`, `reqB`. -/
theorem c1_booking_sequences_preserve_no_overlap_witness :
    BookedNoOverlap poolStore ∧ BookedNoOverlap (runBookings poolStore [reqA, reqB]) :=
  ⟨by decide, c1_booking_sequences_preserve_no_overlap poolStore [reqA, reqB] (by decide)⟩

/-- C2 (counterexample): a reservation with status Cancelled DOES
contribute to the occupied set computed on main.py line 156-157,
because the query carries no status filter: in `cancelledRowStore` the
only row is cancelled, yet its bay 1 is reported occupied, while the
spec's Booked-filtered set is empty. -/
theorem c2_cancelled_row_counted :
    occupiedBays cancelledRowStore "2024-5-6" "11:00:00" "13:00:00" = [1] ∧
      occupiedBaysSpec cancelledRowStore "2024-5-6" "11:00:00" "13:00:00" = [] := by
  decide

/-- C2 (amended): the occupied set is exactly the bay ids of
reservations on the date — of ANY status, Cancelled included — whose
interval overlaps `[start, end)` under the strict half-open test
`s1 < e2 AND s2 < e1`. -/
theorem c2_occupied_set_characterization (st : Store) (d s e : String) (b : Nat) :
    b ∈ occupiedBays st d s e ↔
      ∃ r, r ∈ st.bookings ∧ r.date = d ∧ timeLt r.start_time e = true ∧
        timeLt s r.end_time = true ∧ r.bay_id = b := by
  unfold occupiedBays overlapsRow
  simp only [List.mem_map, List.mem_filter, Bool.and_eq_true, beq_iff_eq]
  constructor
  · rintro ⟨r, ⟨hr, ⟨hd, h1⟩, h2⟩, hb⟩
    exact ⟨r, hr, hd, h1, h2, hb⟩
  · rintro ⟨r, hr, hd, h1, h2, hb⟩
    exact ⟨r, ⟨hr, ⟨hd, h1⟩, h2⟩, hb⟩

/-- C3 (code evaluated at the failing input): with no reservation on the
date, `find_a_bay` takes the no-conflict branch of main.py line 164,
which queries ALL bays with no status filter, and returns bay 1 even
though bay 1 has status "Unavailable"; `new_booking` then assigns it. -/
theorem c3_unavailable_bay_assigned :
    find_a_bay unavailableStore "2024-5-6" "09:00:00" "11:00:00" = some 1 ∧
      (unavailableStore.bays.map (fun b => b.status)) = ["Unavailable"] ∧
      (new_booking unavailableStore reqA).2 = some (0, 1) := by
  decide

/-- C4 (counterexample): cancelling a reservation that is ALREADY
cancelled, with matching id and email, reports success rather than the
claimed NotFoundError: the update of main.py line 83 filters only on id
and email, with no condition on the current status. -/
theorem c4_recancel_reports_success :
    (cancelledRowStore.bookings.map fun r => r.status) = ["cancelled"] ∧
      (cancel_booking cancelledRowStore 7 "a@b.c").2 = true := by
  decide

/-- C4 (amended): when a matching reservation is already Cancelled, the
conditional update still matches it (id and case-folded email only, no
status condition), so `cancel_booking` reports success; the row itself
is left unchanged since its status is rewritten to the value it already
has. -/
theorem c4_recancel_succeeds_unchanged (st : Store) (bid : Nat) (email : String)
    (r : Reservation) (hr : r ∈ st.bookings) (hid : r.id = bid)
    (he : r.email = lowerStr email) (hs : r.status = "cancelled") :
    (cancel_booking st bid email).2 = true ∧
      r ∈ (cancel_booking st bid email).1.bookings := by
  constructor
  · unfold cancel_booking
    dsimp only
    rw [List.any_eq_true]
    exact ⟨r, hr, by simp [hid, he]⟩
  · unfold cancel_booking
    dsimp only
    have hmem := List.mem_map_of_mem (fun x : Reservation =>
      if (x.id == bid && x.email == lowerStr email) = true then
        { x with status := "cancelled" } else x) hr
    have hfix : (if (r.id == bid && r.email == lowerStr email) = true then
        { r with status := "cancelled" } else r) = r := by
      rw [if_pos (by simp [hid, he])]
      cases r
      simp_all
    dsimp only at hmem
    rwa [hfix] at hmem

/-- Witness for C4 (amended): applied to `cancelledRowStore`, whose only
row has id 7, email "a@b.c" and status "cancelled". -/
theorem c4_recancel_succeeds_unchanged_witness :
    (cancel_booking cancelledRowStore 7 "a@b.c").2 = true ∧
      (⟨7, "a@b.c", 1, "2024-5-6", "10:00:00", "12:00:00", "cancelled", "2"⟩ : Reservation) ∈
        (cancel_booking cancelledRowStore 7 "a@b.c").1.bookings :=
  c4_recancel_succeeds_unchanged cancelledRowStore 7 "a@b.c"
    ⟨7, "a@b.c", 1, "2024-5-6", "10:00:00", "12:00:00", "cancelled", "2"⟩
    (by decide) rfl (by decide) rfl

/-- C5 (counterexample): the source takes element `[0]` of an UNORDERED
query (no `order` clause), i.e. the first eligible bay in store order,
not the lowest id: in `descStore` bay 2 is listed before bay 1, both
eligible, and `find_a_bay` returns 2 although 1 is eligible and lower. -/
theorem c5_not_lowest_id :
    find_a_bay descStore "2024-5-6" "09:00:00" "11:00:00" = some 2 ∧
      1 ∈ bayCandidates descStore "2024-5-6" "09:00:00" "11:00:00" ∧ (1 : Nat) < 2 := by
  decide

/-- C5 (amended): `find_a_bay` returns the FIRST eligible candidate in
the store's bay-list order; when the bay table enumerates bays in
ascending id order, that is the lowest-id eligible candidate. -/
theorem c5_lowest_when_sorted (st : Store) (d s e : String) (b : Nat)
    (hsort : st.bays.Pairwise (fun a c => a.id ≤ c.id))
    (hb : find_a_bay st d s e = some b) :
    ∀ c ∈ bayCandidates st d s e, b ≤ c := by
  have hp : (bayCandidates st d s e).Pairwise (fun a c => a ≤ c) := by
    unfold bayCandidates
    dsimp only
    split
    · exact List.Pairwise.map _ (fun a c h => h) hsort
    · exact List.Pairwise.map _ (fun a c h => h)
        (List.Pairwise.sublist (List.filter_sublist _) hsort)
  exact head?_le_of_pairwise hp hb

/-- Witness for C5 (amended): in `poolStore` the bays are listed in
ascending order 1,2,3; `find_a_bay` returns 1, the least candidate. -/
theorem c5_lowest_when_sorted_witness :
    find_a_bay poolStore "2024-5-6" "09:00:00" "11:00:00" = some 1 ∧
      ∀ c ∈ bayCandidates poolStore "2024-5-6" "09:00:00" "11:00:00", 1 ≤ c :=
  ⟨by decide,
   c5_lowest_when_sorted poolStore "2024-5-6" "09:00:00" "11:00:00" 1
     (by decide) (by decide)⟩

/-- C6 (code evaluated at the failing input): `new_booking` inserts the
email exactly as received (main.py line 118 has no `.lower()`), so the
stored row keeps "Alice@Example.COM"; a subsequent `cancel_booking`
with the very same email case-folds its input and finds no match,
reporting failure. -/
theorem c6_mixed_case_email_not_normalized :
    ((new_booking poolStore mixedCaseReq).1.bookings.map fun r => r.email) =
        ["Alice@Example.COM"] ∧
      (cancel_booking (new_booking poolStore mixedCaseReq).1 0 "Alice@Example.COM").2 =
        false := by
  decide

/-- C7 (counterexample): a duration of "0" — not a positive integer —
does NOT make `generate_end_time` fail: `int("0")` succeeds, and the
function returns the start time itself; likewise "-1" yields a clock
time one hour before the start. -/
theorem c7_zero_duration_returns_time :
    generate_end_time "0" "10:00:00" = some "10:00:00" ∧
      generate_end_time "-1" "10:00:00" = some "09:00:00" := by
  decide

/-- C7 (amended): `generate_end_time` fails when the duration does not
parse as an integer at all, but any integer duration — zero and
negative included — is accepted (within Python's datetime range) and
produces start + duration modulo 24 hours. -/
theorem c7_rejects_only_nonnumeric :
    (∀ dur t, parseInt dur = none → generate_end_time dur t = none) ∧
      (∀ dur t s k, parseTime24 t = some s → parseInt dur = some k →
        -16000000 ≤ k → k ≤ 0 →
        generate_end_time dur t =
          some (fmtTime ((((s : Int) + 3600 * k) % 86400).toNat))) := by
  constructor
  · intro dur t hdur
    unfold generate_end_time
    cases ht : parseTime24 t with
    | none => rfl
    | some s => dsimp only; rw [hdur]
  · intro dur t s k hstart hdur hlo hhi
    exact generate_end_time_in_range dur t s k hstart hdur hlo (by omega)

/-- Witness for C7 (amended): the non-numeric duration "abc" fails, the
non-positive duration "0" succeeds and returns the start time. -/
theorem c7_rejects_only_nonnumeric_witness :
    generate_end_time "abc" "10:00:00" = none ∧
      generate_end_time "0" "10:00:00" =
        some (fmtTime ((((36000 : Int) + 3600 * 0) % 86400).toNat)) :=
  ⟨c7_rejects_only_nonnumeric.1 "abc" "10:00:00" (by decide),
   c7_rejects_only_nonnumeric.2 "0" "10:00:00" 36000 0 (by decide) (by decide)
     (by decide) (by decide)⟩

/-- C8: a successful `new_booking` appends exactly one reservation row,
carrying the confirmed bay id, and — whenever its persisted interval
has start earlier than end — feeding the persisted (date, start, end)
back into the overlap query on the new store reports that bay as
occupied. -/
theorem c8_created_booking_reports_occupied (st st' : Store) (p : BookingParams)
    (i b : Nat) (h : new_booking st p = (st', some (i, b))) :
    ∃ r : Reservation, st'.bookings = st.bookings ++ [r] ∧ r.bay_id = b ∧ r.id = i ∧
      (timeLt r.start_time r.end_time = true →
        r.bay_id ∈ occupiedBays st' r.date r.start_time r.end_time) := by
  unfold new_booking at h
  dsimp only at h
  cases hf : format_start_time p.booking_start_time with
  | none => rw [hf] at h; exact absurd (congrArg Prod.snd h) (by simp)
  | some start_time =>
    rw [hf] at h
    dsimp only at h
    cases hg : generate_end_time
        ((splitOnChar ' ' p.booking_duration.data).headD []).asString start_time with
    | none => rw [hg] at h; exact absurd (congrArg Prod.snd h) (by simp)
    | some end_time =>
      rw [hg] at h
      dsimp only at h
      cases hb : find_a_bay st (assembleDate p.year p.month p.day) start_time end_time with
      | none => rw [hb] at h; exact absurd (congrArg Prod.snd h) (by simp)
      | some bay_id =>
        rw [hb] at h
        dsimp only at h
        have hst' := congrArg Prod.fst h
        have hsnd := congrArg Prod.snd h
        dsimp only at hst' hsnd
        have hib : i = st.nextId ∧ b = bay_id := by
          have := Option.some.inj hsnd
          exact ⟨(Prod.mk.inj this.symm).1, (Prod.mk.inj this.symm).2⟩
        refine ⟨⟨st.nextId, p.customer_email, bay_id,
            assembleDate p.year p.month p.day, start_time, end_time, "booked",
            ((splitOnChar ' ' p.booking_duration.data).headD []).asString⟩,
          ?_, by simpa using hib.2.symm, by simpa using hib.1.symm, ?_⟩
        · rw [← hst']
        · intro hlt
          apply List.mem_map_of_mem
          apply List.mem_filter.2
          refine ⟨?_, ?_⟩
          · rw [← hst']
            simp
          · unfold overlapsRow
            simp [hlt]

/-- Witness for C8: booking `reqA` into the empty pool appends the row
for bay 1 and that row's window immediately shows bay 1 occupied. -/
theorem c8_created_booking_reports_occupied_witness :
    ∃ r : Reservation,
      ((new_booking poolStore reqA).1).bookings = poolStore.bookings ++ [r] ∧
        r.bay_id = 1 ∧ r.id = 0 ∧
        (timeLt r.start_time r.end_time = true →
          r.bay_id ∈ occupiedBays (new_booking poolStore reqA).1
            r.date r.start_time r.end_time) :=
  c8_created_booking_reports_occupied poolStore (new_booking poolStore reqA).1 reqA
    0 1 (by decide)

/-- C9: `format_start_time` maps "02:00 PM" to 14:00:00 and "11:59 PM"
to 23:59:00, and rejects the malformed "2pm". -/
theorem c9_format_start_time_examples :
    format_start_time "02:00 PM" = some "14:00:00" ∧
      format_start_time "11:59 PM" = some "23:59:00" ∧
      format_start_time "2pm" = none := by
  decide

/-- C10 (counterexample): the claim quantifies over EVERY positive
duration, but for a large enough duration (100,000,000 hours) the
shifted datetime leaves Python's representable range, `OverflowError`
is caught, and `generate_end_time` returns `None` instead of a wrapped
clock time. -/
theorem c10_huge_duration_fails :
    parseInt "100000000" = some 100000000 ∧
      generate_end_time "100000000" "23:00:00" = none := by
  decide

/-- C10 (amended): for every valid start time and positive integer
duration that keeps the shifted datetime inside Python's representable
range (any duration up to 70,000,000 hours), `generate_end_time`
succeeds and returns (start + duration) modulo 24 hours — even when the
sum reaches or passes midnight, producing an end-time string that can
be lexicographically earlier than the start. -/
theorem c10_wraps_past_midnight (dur t : String) (s : Nat) (k : Int)
    (hstart : parseTime24 t = some s) (hdur : parseInt dur = some k)
    (hpos : 0 < k) (hhi : k ≤ 70000000)
    (_hmid : 86400 ≤ (s : Int) + 3600 * k) :
    generate_end_time dur t =
      some (fmtTime ((((s : Int) + 3600 * k) % 86400).toNat)) :=
  generate_end_time_in_range dur t s k hstart hdur (by omega) hhi

/-- Witness for C10 (amended): start 23:00:00 plus 3 hours crosses
midnight and yields 02:00:00, which is lexicographically earlier than
the start time. -/
theorem c10_wraps_past_midnight_witness :
    generate_end_time "3" "23:00:00" =
        some (fmtTime ((((82800 : Int) + 3600 * 3) % 86400).toNat)) ∧
      timeLt (fmtTime ((((82800 : Int) + 3600 * 3) % 86400).toNat)) "23:00:00" = true :=
  ⟨c10_wraps_past_midnight "3" "23:00:00" 82800 3 (by decide) (by decide)
     (by decide) (by decide) (by decide),
   by decide⟩

end WeGolf
